import Mathlib

/-!
Shallow embedding of the `dynamodb-store-v3` session store
(`src/lib/constants.ts` and `src/lib/dynamodb-store-v3.ts`).

Modelling conventions:
* JS `number` timestamps are `Int` (milliseconds since epoch for
  `Date.now()`-style values, seconds for `expires`/`updated` stamps
  produced by `toSecondsEpoch`).  `Math.floor(x / 1000)` on an integer
  millisecond count is exactly `Int.ediv x 1000` (the divisor is
  positive, so Euclidean division is floor division).
* The dynamic value fed to `toSecondsEpoch` is a small `JSVal` sum type,
  so that the `instanceof Date` guard and the thrown error are explicit.
* The DynamoDB table is an association list from hash-key strings to
  records; each public operation is a pure function from the table state
  (plus an optional injected client fault for the single request the
  operation issues) to the new state, the callback invocation performed,
  and whether a write command was sent.
* Promise `.finally(callback)` invokes the callback with no arguments
  whether the request succeeds or fails; this is modelled faithfully.
-/

namespace DynamoDBStoreV3

/-! ### Constants (`src/lib/constants.ts`) -/

def DEFAULT_TABLE_NAME : String := "sessions"
def DEFAULT_HASH_KEY : String := "id"
def DEFAULT_HASH_PREFIX : String := "sess_"
def DEFAULT_DATA_ATTRIBUTE : String := "sess"
def DEFAULT_RCU : Int := 5
def DEFAULT_WCU : Int := 5
def DEFAULT_TTL : Int := 86400000
def DEFAULT_TOUCH_INTERVAL : Int := 30000
def DEFAULT_KEEP_EXPIRED_POLICY : Bool := false

/-! ### Dynamic values and time helpers -/

/-- A JavaScript runtime value, as far as `toSecondsEpoch` can observe it:
either a `Date` (carrying its millisecond timestamp) or some non-`Date`
value. -/
inductive JSVal where
  | date (ms : Int)
  | num (n : Int)
  | str (s : String)
  | boolean (b : Bool)
  | undef
deriving DecidableEq

/-- String interpolation of a `JSVal`, used only to build the error
message thrown by `toSecondsEpoch`. -/
def JSVal.display : JSVal → String
  | .date ms => "Date(" ++ toString ms ++ ")"
  | .num n => toString n
  | .str s => s
  | .boolean b => toString b
  | .undef => "undefined"

/-- `Math.floor(ms / 1000)`: milliseconds to whole seconds. -/
def msToSec (ms : Int) : Int := Int.ediv ms 1000

/-- `toSecondsEpoch(date)`: throws unless the argument is a `Date`,
otherwise returns `Math.floor(date.getTime() / 1000)`.  The throw is an
`Except.error` carrying the message text. -/
def toSecondsEpoch : JSVal → Except String Int
  | .date ms => .ok (msToSec ms)
  | v => .error (v.display ++ " is not a Date!")

/-- `isExpired(expires)`: `!expires || expires <= toSecondsEpoch(new Date())`.
`nowMs` is the current millisecond clock (`new Date()`); a JS number is
falsy exactly when it is `0` (`NaN` has no integer counterpart). -/
def isExpired (expires : Int) (nowMs : Int) : Bool :=
  (expires == 0) || (expires ≤ msToSec nowMs)

/-! ### Options and the configuration resolver (constructor) -/

/-- Connection parameters, passed through verbatim by the resolver. -/
structure DynamoConfig where
  accessKeyId : Option String
  secretAccessKey : Option String
  region : Option String
  endpoint : Option String
deriving DecidableEq

/-- Caller-supplied `options.table`: `none` models an omitted
(`undefined`) field. -/
structure TableOptionsIn where
  name : Option String
  hashPrefix : Option String
  hashKey : Option String
  dataAttribute : Option String
  readCapacityUnits : Option Int
  writeCapacityUnits : Option Int
deriving DecidableEq

/-- Caller-supplied options structure. -/
structure StoreOptionsIn where
  table : TableOptionsIn
  dynamoConfig : DynamoConfig
  touchInterval : Option Int
  ttl : Option Int
  keepExpired : Option Bool
deriving DecidableEq

/-- Resolved `options.table`. -/
structure TableOptions where
  name : String
  hashPrefix : String
  hashKey : String
  dataAttribute : String
  readCapacityUnits : Int
  writeCapacityUnits : Int
deriving DecidableEq

/-- Resolved store options.  `ttl` stays an `Option` because
`getExpiration` re-checks `this.options.ttl !== undefined` even though
the resolver always populates it. -/
structure StoreOptions where
  table : TableOptions
  dynamoConfig : DynamoConfig
  touchInterval : Int
  ttl : Option Int
  keepExpired : Bool
deriving DecidableEq

/-- JS truthiness of a possibly-absent string: `undefined` and `""` are
falsy. -/
def truthyStr (o : Option String) : Bool :=
  match o with
  | none => false
  | some s => !(s == "")

/-- JS truthiness of a possibly-absent number: `undefined` and `0` are
falsy. -/
def truthyInt (o : Option Int) : Bool :=
  match o with
  | none => false
  | some n => !(n == 0)

/-- JS truthiness of a possibly-absent boolean. -/
def truthyBool (o : Option Bool) : Bool :=
  match o with
  | none => false
  | some b => b

/-- `cond ? cond-value : default` for a string option. -/
def pickStr (o : Option String) (d : String) : String :=
  if truthyStr o then o.getD d else d

/-- `cond ? cond-value : default` for a numeric option. -/
def pickInt (o : Option Int) (d : Int) : Int :=
  if truthyInt o then o.getD d else d

/-- `cond ? cond-value : default` for a boolean option. -/
def pickBool (o : Option Bool) (d : Bool) : Bool :=
  if truthyBool o then o.getD d else d

/-- The constructor's option merge (`this.options = { ... }`): each
field is tested for truthiness and replaced by its default when falsy;
`dynamoConfig` is copied verbatim. -/
def resolveOptions (i : StoreOptionsIn) : StoreOptions where
  table :=
    { name := pickStr i.table.name DEFAULT_TABLE_NAME
      hashPrefix := pickStr i.table.hashPrefix DEFAULT_HASH_PREFIX
      hashKey := pickStr i.table.hashKey DEFAULT_HASH_KEY
      dataAttribute := pickStr i.table.dataAttribute DEFAULT_DATA_ATTRIBUTE
      readCapacityUnits := pickInt i.table.readCapacityUnits DEFAULT_RCU
      writeCapacityUnits := pickInt i.table.writeCapacityUnits DEFAULT_WCU }
  dynamoConfig := i.dynamoConfig
  touchInterval := pickInt i.touchInterval DEFAULT_TOUCH_INTERVAL
  ttl := some (pickInt i.ttl DEFAULT_TTL)
  keepExpired := pickBool i.keepExpired DEFAULT_KEEP_EXPIRED_POLICY

/-! ### Sessions, records and the table state -/

/-- The session payload as the store can observe it: the two fields the
store interprets (`cookie.maxAge` when numeric, `updated`) plus the rest
of the application state, opaque. -/
structure SessionData where
  cookieMaxAge : Option Int
  updated : Option Int
  rest : String
deriving DecidableEq

/-- One stored item: the payload under the data attribute plus the
numeric `expires` attribute (seconds since epoch). -/
structure DBRecord where
  sess : SessionData
  expires : Int
deriving DecidableEq

/-- The DynamoDB table: an association list from hash-key values to
records (first binding wins). -/
abbrev DB := List (String × DBRecord)

def dbGet (db : DB) (k : String) : Option DBRecord :=
  (db.find? (fun p => p.1 == k)).map Prod.snd

def dbPut (db : DB) (k : String) (r : DBRecord) : DB :=
  (k, r) :: db.filter (fun p => !(p.1 == k))

def dbDelete (db : DB) (k : String) : DB :=
  db.filter (fun p => !(p.1 == k))

/-- An error surfaced inside an operation: either a failure reported by
the database client for the request the operation issued, or an `Error`
thrown synchronously (carrying its message). -/
inductive JSError where
  | dbError (code : String)
  | thrown (msg : String)
deriving DecidableEq

/-- How an operation invoked its callback: with no arguments, with one
argument (`none` models a JS `null`/`undefined` error slot), or with two
(`error`, `session`). -/
inductive CBCall where
  | noArgs
  | one (err : Option JSError)
  | two (err : Option JSError) (sess : Option SessionData)
deriving DecidableEq

/-- Outcome of one public operation: the table afterwards, the callback
invocation, and whether a write command (update/delete) was sent to the
database. -/
structure OpResult where
  db : DB
  cb : CBCall
  wrote : Bool
deriving DecidableEq

/-- `getSessionID(sid)`: hash prefix + original session id. -/
def getSessionID (opts : StoreOptions) (sid : String) : String :=
  opts.table.hashPrefix ++ sid

/-- `getExpiration(sess)`: `Date.now()` plus the configured `ttl` when it
is not `undefined`, else the session's numeric `cookie.maxAge`, else the
default ttl.  Returns the millisecond timestamp of the resulting `Date`. -/
def getExpiration (opts : StoreOptions) (sess : SessionData) (nowMs : Int) : Int :=
  match opts.ttl with
  | some t => nowMs + t
  | none =>
    match sess.cookieMaxAge with
    | some m => nowMs + m
    | none => nowMs + DEFAULT_TTL

/-! ### The four public operations

Each takes the table, an optional fault for the single database request
it issues (`some e`: the client rejects with `e`; `none`: the request
succeeds), and the current clock `nowMs`. -/

/-- Result of `set`, which also mutates the caller's payload
(`sess.updated = toSecondsEpoch(new Date())`). -/
structure SetResult extends OpResult where
  sessOut : SessionData
deriving DecidableEq

/-- Body of `set` with the value passed to the first `toSecondsEpoch`
call abstracted (in the source it is `this.getExpiration(sess)`, always
a `Date`; JS typing does not forbid other values, and the surrounding
`try`/`catch` forwards a throw to the callback).  On the send path the
promise's `.finally(callback)` invokes the callback with no arguments
whether the request succeeded or failed. -/
def setWithExpVal (opts : StoreOptions) (db : DB) (fault : Option JSError)
    (sid : String) (sess : SessionData) (nowMs : Int) (expVal : JSVal) : SetResult :=
  match toSecondsEpoch expVal with
  | .error msg =>
    { db := db, cb := .one (some (.thrown msg)), wrote := false, sessOut := sess }
  | .ok expires =>
    let sessionID := getSessionID opts sid
    let sess1 : SessionData := { sess with updated := some (msToSec nowMs) }
    match fault with
    | some _ => { db := db, cb := .noArgs, wrote := true, sessOut := sess1 }
    | none =>
      { db := dbPut db sessionID { sess := sess1, expires := expires }
        cb := .noArgs
        wrote := true
        sessOut := sess1 }

/-- `set(sid, sess, callback)`: stores the session under the prefixed
key with a fresh `expires`, stamping `sess.updated` in seconds. -/
def set (opts : StoreOptions) (db : DB) (fault : Option JSError)
    (sid : String) (sess : SessionData) (nowMs : Int) : SetResult :=
  setWithExpVal opts db fault sid sess nowMs (.date (getExpiration opts sess nowMs))

/-- `destroy(sid, callback)`: delete the item; `callback(null)` on
success, `callback(e)` on failure. -/
def destroy (opts : StoreOptions) (db : DB) (fault : Option JSError)
    (sid : String) : OpResult :=
  match fault with
  | some e => { db := db, cb := .one (some e), wrote := true }
  | none => { db := dbDelete db (getSessionID opts sid), cb := .one none, wrote := true }

/-- `handleExpiredSession(sid, callback)`: keep the record and
`callback()` under the keep-expired policy, otherwise delegate to
`destroy` with the same callback.  `destroyFault` is the fault for the
delete request `destroy` may issue. -/
def handleExpiredSession (opts : StoreOptions) (db : DB) (destroyFault : Option JSError)
    (sid : String) : OpResult :=
  if opts.keepExpired then
    { db := db, cb := .noArgs, wrote := false }
  else
    destroy opts db destroyFault sid

/-- `get(sid, callback)`: strongly-consistent point read.  `fault` is for
the read request, `destroyFault` for the delete that an expired record
may trigger.  Outcomes: `callback(e)` on a client error, `callback(null,
null)` when no record, the expired handler when `isExpired`, else
`callback(null, record[dataAttribute])`. -/
def get (opts : StoreOptions) (db : DB) (fault destroyFault : Option JSError)
    (sid : String) (nowMs : Int) : OpResult :=
  match fault with
  | some e => { db := db, cb := .one (some e), wrote := false }
  | none =>
    match dbGet db (getSessionID opts sid) with
    | none => { db := db, cb := .two none none, wrote := false }
    | some record =>
      if isExpired record.expires nowMs then
        handleExpiredSession opts db destroyFault sid
      else
        { db := db, cb := .two none (some record.sess), wrote := false }

/-- `touch(sid, sess, callback)`: skip (and `callback()`) unless
`!sess.updated || sess.updated + touchInterval <= Date.now()`; otherwise
send an update refreshing `expires` and the stored payload's nested
`updated` to `Date.now()`.  The send path again ends in
`.finally(callback)`; the `catch` also calls back with no arguments.
DynamoDB would reject the nested-path update when the item is absent;
no claim depends on that case, so the absent case leaves the table
unchanged while still counting as an issued write. -/
def touch (opts : StoreOptions) (db : DB) (fault : Option JSError)
    (sid : String) (sess : SessionData) (nowMs : Int) : OpResult :=
  let updatedFalsy :=
    match sess.updated with
    | none => true
    | some u => u == 0
  if updatedFalsy || (sess.updated.getD 0 + opts.touchInterval ≤ nowMs) then
    let sessionID := getSessionID opts sid
    let expires := msToSec (getExpiration opts sess nowMs)
    match fault with
    | some _ => { db := db, cb := .noArgs, wrote := true }
    | none =>
      match dbGet db sessionID with
      | some r =>
        { db := dbPut db sessionID
            { sess := { r.sess with updated := some nowMs }, expires := expires }
          cb := .noArgs
          wrote := true }
      | none => { db := db, cb := .noArgs, wrote := true }
  else
    { db := db, cb := .noArgs, wrote := false }

/-! ### Concrete fixtures for witnesses and counterexamples -/

/-- A connection block (passed through verbatim, content irrelevant). -/
def sampleDynamoConfig : DynamoConfig :=
  { accessKeyId := some "key", secretAccessKey := some "secret"
    region := some "us-east-1", endpoint := none }

/-- Caller options with every optional field omitted. -/
def allDefaultsIn : StoreOptionsIn :=
  { table :=
      { name := none, hashPrefix := none, hashKey := none
        dataAttribute := none, readCapacityUnits := none, writeCapacityUnits := none }
    dynamoConfig := sampleDynamoConfig
    touchInterval := none, ttl := none, keepExpired := none }

/-- The fully-defaulted store configuration. -/
def defaultOpts : StoreOptions := resolveOptions allDefaultsIn

/-- The defaulted configuration with the keep-expired policy enabled. -/
def keepOpts : StoreOptions :=
  resolveOptions { allDefaultsIn with keepExpired := some true }

/-- A resolved-shaped options value with `ttl` absent, to exercise the
`cookie.maxAge` branch of `getExpiration` directly. -/
def optsNoTtl : StoreOptions := { defaultOpts with ttl := none }

/-- A sample payload without `updated` or `cookie.maxAge`. -/
def sampleSess : SessionData := { cookieMaxAge := none, updated := none, rest := "cart" }

/-- A sample payload carrying a numeric `cookie.maxAge`. -/
def sampleMaxAgeSess : SessionData :=
  { cookieMaxAge := some 7000, updated := none, rest := "cart" }

/-- A long-expired stored record. -/
def expiredRec : DBRecord := { sess := sampleSess, expires := 100 }

/-- A table holding only that expired record under the default key for
sid `"abc"`. -/
def expiredDB : DB := [("sess_abc", expiredRec)]

/-! ### Helper lemmas -/

theorem dbGet_dbPut_same (db : DB) (k : String) (r : DBRecord) :
    dbGet (dbPut db k r) k = some r := by
  simp [dbGet, dbPut, List.find?]

theorem dbGet_dbDelete_same (db : DB) (k : String) :
    dbGet (dbDelete db k) k = none := by
  have hnone : (dbDelete db k).find? (fun p => p.1 == k) = none := by
    rw [List.find?_eq_none]
    intro x hx
    have hmem := (List.mem_filter.mp hx).2
    simpa using hmem
  simp [dbGet, hnone]

theorem msToSec_mono {a b : Int} (h : a ≤ b) : msToSec a ≤ msToSec b :=
  Int.ediv_le_ediv (by norm_num) h

theorem msToSec_add_thousand (a : Int) : msToSec (a + 1000) = msToSec a + 1 := by
  unfold msToSec
  have h := Int.add_mul_ediv_right a 1 (show (1000 : Int) ≠ 0 by norm_num)
  simpa using h

theorem msToSec_nonneg {a : Int} (h : 0 ≤ a) : 0 ≤ msToSec a :=
  Int.ediv_nonneg h (by norm_num)

theorem isExpired_eq_false (expires nowMs : Int)
    (h0 : expires ≠ 0) (hlt : msToSec nowMs < expires) :
    isExpired expires nowMs = false := by
  unfold isExpired
  simp [h0, not_le.mpr hlt]

/-- An `expires` stamp computed as `now + ttl` (with `ttl ≥ 1000` ms and
a nonnegative clock) is not yet expired at the same instant. -/
theorem fresh_expires_not_expired {nowMs t : Int} (hnow : 0 ≤ nowMs) (ht : 1000 ≤ t) :
    isExpired (msToSec (nowMs + t)) nowMs = false := by
  have hstep : msToSec nowMs + 1 ≤ msToSec (nowMs + t) := by
    rw [← msToSec_add_thousand]
    exact msToSec_mono (by linarith)
  have h0 : 0 ≤ msToSec nowMs := msToSec_nonneg hnow
  exact isExpired_eq_false _ _ (by omega) (by omega)

theorem pickStr_ne_empty (o : Option String) (d : String) (hd : d ≠ "") :
    pickStr o d ≠ "" := by
  unfold pickStr truthyStr
  cases o with
  | none => simpa using hd
  | some s =>
    by_cases hs : s = "" <;> simp [hs, hd]

theorem pickInt_ne_zero (o : Option Int) (d : Int) (hd : d ≠ 0) :
    pickInt o d ≠ 0 := by
  unfold pickInt truthyInt
  cases o with
  | none => simpa using hd
  | some n =>
    by_cases hn : n = 0 <;> simp [hn, hd]

/-! ### Claim theorems -/

/-- Claim C1 (code bug): the spec requires `touch` to be a no-op within
`touchInterval` milliseconds of a successful save, but `set` stamps
`updated` in seconds while `touch` compares it against the millisecond
clock, so a touch 1000 ms after a save (interval 30000 ms) still issues
a write: after `set` at 1700000000000 ms stamps `updated = 1700000000`
(seconds), `touch` at 1700000001000 ms has `wrote = true`. -/
theorem touch_writes_within_interval_after_save :
    (set defaultOpts [] none "abc" sampleSess 1700000000000).sessOut.updated =
        some 1700000000 ∧
    ((1700000001000 : Int) - 1700000000000 < defaultOpts.touchInterval) ∧
    (touch defaultOpts (set defaultOpts [] none "abc" sampleSess 1700000000000).db none
        "abc" (set defaultOpts [] none "abc" sampleSess 1700000000000).sessOut
        1700000001000).wrote = true := by
  refine ⟨by decide, by decide, by decide⟩

/-- Claim C2: a `get` immediately after a successful `set` of the same
sid (same clock instant, configured ttl at least one second, nonnegative
clock) calls back with `(null, payload)` where the payload is the saved
session plus the store's own `updated` stamp in seconds. -/
theorem get_after_set_returns_saved (opts : StoreOptions) (t : Int)
    (httl : opts.ttl = some t) (ht : 1000 ≤ t) (nowMs : Int) (hnow : 0 ≤ nowMs)
    (db : DB) (fd : Option JSError) (sid : String) (sess : SessionData) :
    get opts (set opts db none sid sess nowMs).db none fd sid nowMs =
      { db := (set opts db none sid sess nowMs).db
        cb := .two none (some { sess with updated := some (msToSec nowMs) })
        wrote := false } := by
  have hexp : getExpiration opts sess nowMs = nowMs + t := by
    simp [getExpiration, httl]
  have hset : (set opts db none sid sess nowMs).db =
      dbPut db (getSessionID opts sid)
        { sess := { sess with updated := some (msToSec nowMs) }
          expires := msToSec (nowMs + t) } := by
    simp [set, setWithExpVal, toSecondsEpoch, hexp]
  rw [hset]
  simp [get, dbGet_dbPut_same, fresh_expires_not_expired hnow ht]

/-- Witness for C2 at sid `"abc"`, the default configuration and clock
1700000000000 ms. -/
theorem get_after_set_returns_saved_witness :
    get defaultOpts (set defaultOpts [] none "abc" sampleSess 1700000000000).db none none
        "abc" 1700000000000 =
      { db := (set defaultOpts [] none "abc" sampleSess 1700000000000).db
        cb := .two none (some { sampleSess with updated := some (msToSec 1700000000000) })
        wrote := false } :=
  get_after_set_returns_saved defaultOpts 86400000 (by decide) (by decide)
    1700000000000 (by decide) [] none "abc" sampleSess

/-- Claim C3: `get` on an expired record destroys it and forwards the
callback to `destroy` (which calls back `(null)`), so a subsequent `get`
reports not-found, unless the keep-expired policy is set, in which case
the callback is invoked with no arguments and the record stays. -/
theorem get_expired_record_policy (opts : StoreOptions) (db : DB) (sid : String)
    (nowMs : Int) (rec : DBRecord)
    (hfound : dbGet db (getSessionID opts sid) = some rec)
    (hexp : isExpired rec.expires nowMs = true) :
    (opts.keepExpired = false →
      get opts db none none sid nowMs =
        { db := dbDelete db (getSessionID opts sid), cb := .one none, wrote := true } ∧
      get opts (get opts db none none sid nowMs).db none none sid nowMs =
        { db := dbDelete db (getSessionID opts sid), cb := .two none none
          wrote := false }) ∧
    (opts.keepExpired = true →
      get opts db none none sid nowMs = { db := db, cb := .noArgs, wrote := false }) := by
  constructor
  · intro hkeep
    have h1 : get opts db none none sid nowMs =
        { db := dbDelete db (getSessionID opts sid), cb := .one none, wrote := true } := by
      simp [get, hfound, hexp, handleExpiredSession, hkeep, destroy]
    refine ⟨h1, ?_⟩
    rw [h1]
    simp [get, dbGet_dbDelete_same]
  · intro hkeep
    simp [get, hfound, hexp, handleExpiredSession, hkeep]

/-- Witness for C3: the expired record for sid `"abc"` is deleted and
then reported not-found under the default policy, and retained with a
zero-argument callback under the keep-expired policy. -/
theorem get_expired_record_policy_witness :
    (get defaultOpts expiredDB none none "abc" 1700000000000 =
      { db := dbDelete expiredDB (getSessionID defaultOpts "abc"), cb := .one none
        wrote := true }) ∧
    (get defaultOpts (get defaultOpts expiredDB none none "abc" 1700000000000).db none none
        "abc" 1700000000000 =
      { db := dbDelete expiredDB (getSessionID defaultOpts "abc"), cb := .two none none
        wrote := false }) ∧
    (get keepOpts expiredDB none none "abc" 1700000000000 =
      { db := expiredDB, cb := .noArgs, wrote := false }) := by
  have hdef := get_expired_record_policy defaultOpts expiredDB "abc" 1700000000000
    expiredRec (by decide) (by decide)
  have hkeep := get_expired_record_policy keepOpts expiredDB "abc" 1700000000000
    expiredRec (by decide) (by decide)
  exact ⟨(hdef.1 (by decide)).1, (hdef.1 (by decide)).2, hkeep.2 (by decide)⟩

/-- Claim C4 counterexample: a database failure during `set` is not
passed to the callback — the promise's `.finally(callback)` invokes the
callback with no arguments, so the claim that every client error is
passed verbatim as the first callback argument is false. -/
theorem set_db_error_not_passed :
    (set defaultOpts [] (some (JSError.dbError "ServiceUnavailable")) "abc" sampleSess
      1700000000000).cb = CBCall.noArgs := by
  decide

/-- Claim C4 as amended: no operation retries or translates a client
error; `get` and `destroy` pass it verbatim as the first callback
argument, while `set` and `touch` (whose sends end in
`.finally(callback)`) invoke the callback with no arguments when the
request fails. -/
theorem db_error_propagation (opts : StoreOptions) (db : DB) (e : JSError)
    (fd : Option JSError) (sid : String) (sess : SessionData) (nowMs : Int) :
    (get opts db (some e) fd sid nowMs).cb = CBCall.one (some e) ∧
    (destroy opts db (some e) sid).cb = CBCall.one (some e) ∧
    (set opts db (some e) sid sess nowMs).cb = CBCall.noArgs ∧
    (touch opts db (some e) sid { sess with updated := none } nowMs).cb =
      CBCall.noArgs :=
  ⟨rfl, rfl, rfl, rfl⟩

/-- Claim C5: `getExpiration` returns now + ttl when a ttl is
configured, otherwise now + the session's numeric `cookie.maxAge`,
otherwise now + the default ttl — always an absolute timestamp. -/
theorem getExpiration_branches (opts : StoreOptions) (sess : SessionData) (nowMs : Int) :
    (∀ t, opts.ttl = some t → getExpiration opts sess nowMs = nowMs + t) ∧
    (opts.ttl = none → ∀ m, sess.cookieMaxAge = some m →
      getExpiration opts sess nowMs = nowMs + m) ∧
    (opts.ttl = none → sess.cookieMaxAge = none →
      getExpiration opts sess nowMs = nowMs + DEFAULT_TTL) := by
  refine ⟨?_, ?_, ?_⟩ <;> intros <;> simp [getExpiration, *]

/-- Witness for C5 exercising all three branches at concrete inputs. -/
theorem getExpiration_branches_witness :
    getExpiration defaultOpts sampleSess 10 = 10 + 86400000 ∧
    getExpiration optsNoTtl sampleMaxAgeSess 10 = 10 + 7000 ∧
    getExpiration optsNoTtl sampleSess 10 = 10 + DEFAULT_TTL :=
  ⟨(getExpiration_branches defaultOpts sampleSess 10).1 86400000 (by decide),
   (getExpiration_branches optsNoTtl sampleMaxAgeSess 10).2.1 (by decide) 7000 (by decide),
   (getExpiration_branches optsNoTtl sampleSess 10).2.2 (by decide) (by decide)⟩

/-- Claim C6: every omitted optional field resolves to its documented
default (`"sessions"`, `"sess_"`, `"id"`, `"sess"`, 5, 5, 30000 ms,
86400000 ms, keep-expired false); the resolver is a total function, so
no error is raised for missing optional fields. -/
theorem resolver_fills_defaults (i : StoreOptionsIn) :
    (i.table.name = none → (resolveOptions i).table.name = "sessions") ∧
    (i.table.hashPrefix = none → (resolveOptions i).table.hashPrefix = "sess_") ∧
    (i.table.hashKey = none → (resolveOptions i).table.hashKey = "id") ∧
    (i.table.dataAttribute = none → (resolveOptions i).table.dataAttribute = "sess") ∧
    (i.table.readCapacityUnits = none → (resolveOptions i).table.readCapacityUnits = 5) ∧
    (i.table.writeCapacityUnits = none →
      (resolveOptions i).table.writeCapacityUnits = 5) ∧
    (i.touchInterval = none → (resolveOptions i).touchInterval = 30000) ∧
    (i.ttl = none → (resolveOptions i).ttl = some 86400000) ∧
    (i.keepExpired = none → (resolveOptions i).keepExpired = false) := by
  refine ⟨?_, ?_, ?_, ?_, ?_, ?_, ?_, ?_, ?_⟩ <;> intro h <;>
    simp [resolveOptions, pickStr, pickInt, pickBool, truthyStr, truthyInt, truthyBool, h,
      DEFAULT_TABLE_NAME, DEFAULT_HASH_PREFIX, DEFAULT_HASH_KEY, DEFAULT_DATA_ATTRIBUTE,
      DEFAULT_RCU, DEFAULT_WCU, DEFAULT_TOUCH_INTERVAL, DEFAULT_TTL,
      DEFAULT_KEEP_EXPIRED_POLICY]

/-- Witness for C6 at the all-omitted options structure. -/
theorem resolver_fills_defaults_witness :
    (resolveOptions allDefaultsIn).table.name = "sessions" ∧
    (resolveOptions allDefaultsIn).table.hashPrefix = "sess_" ∧
    (resolveOptions allDefaultsIn).table.hashKey = "id" ∧
    (resolveOptions allDefaultsIn).table.dataAttribute = "sess" ∧
    (resolveOptions allDefaultsIn).table.readCapacityUnits = 5 ∧
    (resolveOptions allDefaultsIn).table.writeCapacityUnits = 5 ∧
    (resolveOptions allDefaultsIn).touchInterval = 30000 ∧
    (resolveOptions allDefaultsIn).ttl = some 86400000 ∧
    (resolveOptions allDefaultsIn).keepExpired = false := by
  have h := resolver_fills_defaults allDefaultsIn
  exact ⟨h.1 rfl, h.2.1 rfl, h.2.2.1 rfl, h.2.2.2.1 rfl, h.2.2.2.2.1 rfl,
    h.2.2.2.2.2.1 rfl, h.2.2.2.2.2.2.1 rfl, h.2.2.2.2.2.2.2.1 rfl,
    h.2.2.2.2.2.2.2.2 rfl⟩

/-- Claim C7: `isExpired expires` is true exactly when `expires` is zero
or at most the current seconds-since-epoch, and false otherwise. -/
theorem isExpired_spec (expires nowMs : Int) :
    isExpired expires nowMs = true ↔ expires = 0 ∨ expires ≤ msToSec nowMs := by
  unfold isExpired
  simp

/-- Claim C8: `toSecondsEpoch` throws on every non-`Date` value and maps
a `Date` to the floor of its millisecond timestamp divided by 1000; when
a call to it inside `set` throws, the `catch` forwards the thrown error
to the callback as its argument and nothing is written. -/
theorem toSecondsEpoch_spec :
    (∀ v : JSVal, (∀ ms, v ≠ JSVal.date ms) →
      toSecondsEpoch v = .error (v.display ++ " is not a Date!")) ∧
    (∀ ms : Int, toSecondsEpoch (JSVal.date ms) = .ok (Int.ediv ms 1000)) ∧
    (∀ (opts : StoreOptions) (db : DB) (fault : Option JSError) (sid : String)
        (sess : SessionData) (nowMs : Int) (expVal : JSVal) (msg : String),
      toSecondsEpoch expVal = .error msg →
      setWithExpVal opts db fault sid sess nowMs expVal =
        { db := db, cb := .one (some (.thrown msg)), wrote := false, sessOut := sess }) := by
  refine ⟨?_, fun _ => rfl, ?_⟩
  · intro v h
    cases v with
    | date ms => exact absurd rfl (h ms)
    | num n => rfl
    | str s => rfl
    | boolean b => rfl
    | undef => rfl
  · intro opts db fault sid sess nowMs expVal msg h
    unfold setWithExpVal
    rw [h]

/-- Witness for C8 at a numeric value, a concrete `Date` and a `set`
whose conversion input is `undefined`. -/
theorem toSecondsEpoch_spec_witness :
    toSecondsEpoch (JSVal.num 5) = .error "5 is not a Date!" ∧
    toSecondsEpoch (JSVal.date 1700000001234) = .ok 1700000001 ∧
    setWithExpVal defaultOpts [] none "abc" sampleSess 0 JSVal.undef =
      { db := [], cb := .one (some (.thrown "undefined is not a Date!")), wrote := false
        sessOut := sampleSess } := by
  refine ⟨?_, ?_, ?_⟩
  · exact toSecondsEpoch_spec.1 (JSVal.num 5) (fun ms h => JSVal.noConfusion h)
  · have h := toSecondsEpoch_spec.2.1 1700000001234
    rw [h]
    have hdiv : Int.ediv 1700000001234 1000 = 1700000001 := by decide
    rw [hdiv]
  · exact toSecondsEpoch_spec.2.2 defaultOpts [] none "abc" sampleSess 0 JSVal.undef
      "undefined is not a Date!" rfl

/-- Claim C9 counterexample: the store built from all-omitted options
has `keepExpired = false`, a falsy value, so it is false that no store
instance can have a falsy value for an optional option. -/
theorem resolved_keepExpired_falsy :
    (resolveOptions allDefaultsIn).keepExpired = false := by
  decide

/-- Claim C9 as amended: supplied falsy values are silently replaced by
the defaults (touchInterval 0 becomes 30000, hash prefix `""` becomes
`"sess_"`, table name `""` becomes `"sessions"`), and every resolved
string or numeric optional option is truthy (nonempty or nonzero) for
every input; `keepExpired`, however, resolves to the falsy `false`
unless the caller supplies `true`. -/
theorem resolver_truthiness (i : StoreOptionsIn) :
    (resolveOptions { i with touchInterval := some 0 }).touchInterval = 30000 ∧
    (resolveOptions
      { i with table := { i.table with hashPrefix := some "" } }).table.hashPrefix =
      "sess_" ∧
    (resolveOptions { i with table := { i.table with name := some "" } }).table.name =
      "sessions" ∧
    (resolveOptions i).table.name ≠ "" ∧
    (resolveOptions i).table.hashPrefix ≠ "" ∧
    (resolveOptions i).table.hashKey ≠ "" ∧
    (resolveOptions i).table.dataAttribute ≠ "" ∧
    (resolveOptions i).table.readCapacityUnits ≠ 0 ∧
    (resolveOptions i).table.writeCapacityUnits ≠ 0 ∧
    (resolveOptions i).touchInterval ≠ 0 ∧
    (resolveOptions i).ttl ≠ some 0 ∧
    ((resolveOptions i).keepExpired = true ↔ i.keepExpired = some true) := by
  refine ⟨?_, ?_, ?_, pickStr_ne_empty _ _ (by decide), pickStr_ne_empty _ _ (by decide),
    pickStr_ne_empty _ _ (by decide), pickStr_ne_empty _ _ (by decide),
    pickInt_ne_zero _ _ (by decide), pickInt_ne_zero _ _ (by decide),
    pickInt_ne_zero _ _ (by decide), ?_, ?_⟩
  · simp [resolveOptions, pickInt, truthyInt, DEFAULT_TOUCH_INTERVAL]
  · simp [resolveOptions, pickStr, truthyStr, DEFAULT_HASH_PREFIX]
  · simp [resolveOptions, pickStr, truthyStr, DEFAULT_TABLE_NAME]
  · have h := pickInt_ne_zero i.ttl DEFAULT_TTL (by decide)
    simpa [resolveOptions] using h
  · unfold resolveOptions pickBool truthyBool
    cases i.keepExpired with
    | none => simp [DEFAULT_KEEP_EXPIRED_POLICY]
    | some b => cases b <;> simp [DEFAULT_KEEP_EXPIRED_POLICY]

/-- Claim C10: the resolver always populates `ttl`, so `getExpiration`
on any constructed store takes the fixed-ttl branch for every payload:
the result is now + the resolved ttl and is independent of
`cookie.maxAge`. -/
theorem getExpiration_always_fixed_ttl (i : StoreOptionsIn) (sess sess' : SessionData)
    (nowMs : Int) :
    (resolveOptions i).ttl = some (pickInt i.ttl DEFAULT_TTL) ∧
    getExpiration (resolveOptions i) sess nowMs = nowMs + pickInt i.ttl DEFAULT_TTL ∧
    getExpiration (resolveOptions i) sess nowMs =
      getExpiration (resolveOptions i) sess' nowMs :=
  ⟨rfl, rfl, rfl⟩

end DynamoDBStoreV3
